import Mathlib

/-!
Verification development for the Arviso law-firm client-communication system
(`ai_logic.py`).  The Python source is shallowly embedded: pure functions become
Lean functions, external text-generation calls become explicit `Except`-valued
parameters (the call's outcome), wall-clock reads become explicit parameters,
and Python's dynamically typed JSON values are modelled by the `Json` type.
Machine floats are modelled by exact rationals.
-/

namespace Arviso

/-- JSON values as produced by the model of Python `json.loads`.  Integer and
floating literals are tracked separately, like Python `int` and `float`;
`nanV`/`infV` model the non-standard `NaN`/`Infinity` literals Python accepts.
Objects are association lists without duplicate keys (later duplicate keys in
the source text overwrite earlier ones, as in Python dicts). -/
inductive Json where
| null : Json
| bool (b : Bool) : Json
| int (n : Int) : Json
| float (q : ℚ) : Json
| nanV : Json
| infV (neg : Bool) : Json
| str (s : String) : Json
| arr (elems : List Json) : Json
| obj (fields : List (String × Json)) : Json
deriving Inhabited

/-- Python `d.get(k)` on a duplicate-free association list. -/
def objGet (l : List (String × Json)) (k : String) : Option Json :=
  (l.find? (fun p => p.1 = k)).map (fun p => p.2)

/-- Python `d[k] = v`: replace in place if the key exists, else append. -/
def objInsert (l : List (String × Json)) (k : String) (v : Json) :
    List (String × Json) :=
  if l.any (fun p => p.1 = k) then
    l.map (fun p => if p.1 = k then (k, v) else p)
  else l ++ [(k, v)]

/-- JSON whitespace accepted between tokens by `json.loads`. -/
def isJsonWs (c : Char) : Bool := c = ' ' || c = '\t' || c = '\n' || c = '\r'

def skipWs : List Char → List Char
| [] => []
| c :: rest => if isJsonWs c then skipWs rest else c :: rest

/-- Whitespace removed by Python `str.strip()` (ASCII part). -/
def isPyWs (c : Char) : Bool :=
  c = ' ' || c = '\t' || c = '\n' || c = '\r' || c = '\x0b' || c = '\x0c'

def pyStripChars (l : List Char) : List Char :=
  ((l.dropWhile isPyWs).reverse.dropWhile isPyWs).reverse

def pyStripStr (s : String) : String := ⟨pyStripChars s.data⟩

def isDigitC (c : Char) : Bool := '0' ≤ c && c ≤ '9'

def digitVal (c : Char) : ℕ := c.toNat - 48

def natOfDigits (l : List Char) : ℕ := l.foldl (fun a c => 10 * a + digitVal c) 0

/-- First index at which `pat` occurs in `l`, as in Python `str.find` (for a
nonempty pattern); `-1` when absent. -/
def findSubAux (pat : List Char) : List Char → ℕ → Int
| [], _ => -1
| c :: rest, i =>
  if pat.isPrefixOf (c :: rest) then (i : Int) else findSubAux pat rest (i + 1)

/-- Python `s.find(pat, start)` for a nonempty pattern. -/
def findSubFrom (s pat : List Char) (start : ℕ) : Int :=
  let r := findSubAux pat (s.drop start) 0
  if r < 0 then -1 else r + start

/-- Python `s.find(c)` for a single character. -/
def findChar (s : List Char) (c : Char) : Int := findSubFrom s [c] 0

def rfindCharAux (c : Char) : List Char → ℕ → Int → Int
| [], _, best => best
| x :: rest, i, best =>
  rfindCharAux c rest (i + 1) (if x = c then (i : Int) else best)

/-- Python `s.rfind(c)`. -/
def rfindChar (s : List Char) (c : Char) : Int := rfindCharAux c s 0 (-1)

/-- Python slice `s[a:b]` for nonnegative bounds (the only case the parser
reaches). -/
def pySliceNat (s : List Char) (a b : ℕ) : List Char := (s.take b).drop a

/-- `10 ^ e` over ℚ for a possibly negative exponent. -/
def zpow10 (e : Int) : ℚ :=
  if 0 ≤ e then (10 : ℚ) ^ e.toNat else 1 / (10 : ℚ) ^ (-e).toNat

def hexDigitVal (c : Char) : Option ℕ :=
  if isDigitC c then some (digitVal c)
  else if 'a' ≤ c && c ≤ 'f' then some (c.toNat - 87)
  else if 'A' ≤ c && c ≤ 'F' then some (c.toNat - 55)
  else none

def parseHex4 : List Char → Option (ℕ × List Char)
| a :: b :: c :: d :: rest =>
  match hexDigitVal a, hexDigitVal b, hexDigitVal c, hexDigitVal d with
  | some x, some y, some z, some w => some ((((x * 16 + y) * 16 + z) * 16 + w), rest)
  | _, _, _, _ => none
| _ => none

/-- Turn a code point into a `Char`; code points that are not Unicode scalar
values (lone surrogates, which Python strings can hold) collapse to the
default character — a corner no claim depends on. -/
def charOfCode (n : ℕ) : Char := Char.ofNat n

/-- Body of a JSON string literal after the opening quote, in `json.loads`
strict mode (raw control characters rejected, the standard escapes accepted,
`\uXXXX` with surrogate pairing). -/
def parseStringBody : ℕ → List Char → List Char → Option (String × List Char)
| 0, _, _ => none
| Nat.succ fuel, acc, l =>
  match l with
  | [] => none
  | '"' :: rest => some (⟨acc.reverse⟩, rest)
  | '\\' :: esc =>
    match esc with
    | '"' :: r => parseStringBody fuel ('"' :: acc) r
    | '\\' :: r => parseStringBody fuel ('\\' :: acc) r
    | '/' :: r => parseStringBody fuel ('/' :: acc) r
    | 'b' :: r => parseStringBody fuel ('\x08' :: acc) r
    | 'f' :: r => parseStringBody fuel ('\x0c' :: acc) r
    | 'n' :: r => parseStringBody fuel ('\n' :: acc) r
    | 'r' :: r => parseStringBody fuel ('\x0d' :: acc) r
    | 't' :: r => parseStringBody fuel ('\t' :: acc) r
    | 'u' :: r =>
      match parseHex4 r with
      | none => none
      | some (n, r2) =>
        if 0xD800 ≤ n && n ≤ 0xDBFF then
          match r2 with
          | '\\' :: 'u' :: r3 =>
            match parseHex4 r3 with
            | some (n2, r4) =>
              if 0xDC00 ≤ n2 && n2 ≤ 0xDFFF then
                parseStringBody fuel
                  (charOfCode (0x10000 + (n - 0xD800) * 0x400 + (n2 - 0xDC00)) :: acc) r4
              else parseStringBody fuel (charOfCode n :: acc) r2
            | none => parseStringBody fuel (charOfCode n :: acc) r2
          | _ => parseStringBody fuel (charOfCode n :: acc) r2
        else parseStringBody fuel (charOfCode n :: acc) r2
    | _ => none
  | c :: rest =>
    if c.toNat < 0x20 then none else parseStringBody fuel (c :: acc) rest

def takeDigits (l : List Char) : List Char × List Char :=
  (l.takeWhile isDigitC, l.dropWhile isDigitC)

/-- Optional fraction part `.digits+`; on a bare `.` nothing is consumed,
mirroring the regex `(?:\.\d+)?`. -/
def parseFracPart (l : List Char) : Option (ℕ × ℕ) × List Char :=
  match l with
  | '.' :: r =>
    let p := takeDigits r
    if p.1 = [] then (none, l) else (some (natOfDigits p.1, p.1.length), p.2)
  | _ => (none, l)

/-- Optional exponent part `[eE][+-]?digits+`; malformed exponents are not
consumed, mirroring the regex `(?:[eE][-+]?\d+)?`. -/
def parseExpDigits (after orig : List Char) : Option Int × List Char :=
  let p : Bool × List Char :=
    match after with
    | '+' :: r => (false, r)
    | '-' :: r => (true, r)
    | _ => (false, after)
  let q := takeDigits p.2
  if q.1 = [] then (none, orig)
  else (some (if p.1 then -(natOfDigits q.1 : Int) else (natOfDigits q.1 : Int)), q.2)

def parseExpPart (l : List Char) : Option Int × List Char :=
  match l with
  | 'e' :: rest => parseExpDigits rest l
  | 'E' :: rest => parseExpDigits rest l
  | _ => (none, l)

/-- Assemble a number token: an `int` when there is neither fraction nor
exponent, a `float` (modelled exactly over ℚ) otherwise. -/
def finishNumber (neg : Bool) (ip : ℕ) (rest : List Char) : Json × List Char :=
  let f := parseFracPart rest
  let e := parseExpPart f.2
  match f.1, e.1 with
  | none, none => (Json.int (if neg then -(ip : Int) else (ip : Int)), e.2)
  | _, _ =>
    let base : ℚ := (ip : ℚ) +
      (match f.1 with
       | some fv => (fv.1 : ℚ) / (10 : ℚ) ^ fv.2
       | none => 0)
    let v : ℚ := base * zpow10 ((e.1).getD 0)
    (Json.float (if neg then -v else v), e.2)

/-- JSON number grammar `-?(0|[1-9]\d*)(\.\d+)?([eE][-+]?\d+)?`. -/
def parseNumber (s : List Char) : Option (Json × List Char) :=
  let p : Bool × List Char :=
    match s with
    | '-' :: r => (true, r)
    | _ => (false, s)
  match p.2 with
  | '0' :: r => some (finishNumber p.1 0 r)
  | c :: r =>
    if isDigitC c && c ≠ '0' then
      let d := takeDigits (c :: r)
      some (finishNumber p.1 (natOfDigits d.1) d.2)
    else none
  | [] => none

mutual

/-- One JSON value starting at the head of the input (leading whitespace
already skipped), as in Python's scanner: strings, objects, arrays, keyword
literals (including `NaN`/`Infinity`/`-Infinity`), then numbers. -/
def parseValue : ℕ → List Char → Option (Json × List Char)
| 0, _ => none
| Nat.succ fuel, l =>
  match l with
  | [] => none
  | '"' :: rest =>
    (parseStringBody (rest.length + 1) [] rest).map (fun p => (Json.str p.1, p.2))
  | '{' :: rest => parseObjFields fuel (skipWs rest) true []
  | '[' :: rest => parseArrElems fuel (skipWs rest) true []
  | 't' :: 'r' :: 'u' :: 'e' :: rest => some (Json.bool true, rest)
  | 'f' :: 'a' :: 'l' :: 's' :: 'e' :: rest => some (Json.bool false, rest)
  | 'n' :: 'u' :: 'l' :: 'l' :: rest => some (Json.null, rest)
  | 'N' :: 'a' :: 'N' :: rest => some (Json.nanV, rest)
  | 'I' :: 'n' :: 'f' :: 'i' :: 'n' :: 'i' :: 't' :: 'y' :: rest =>
    some (Json.infV false, rest)
  | '-' :: 'I' :: 'n' :: 'f' :: 'i' :: 'n' :: 'i' :: 't' :: 'y' :: rest =>
    some (Json.infV true, rest)
  | _ => parseNumber l

/-- Object members; `allowClose` is true exactly when a `}` may come next
(start of an empty object), so trailing commas are rejected. -/
def parseObjFields : ℕ → List Char → Bool → List (String × Json) →
    Option (Json × List Char)
| 0, _, _, _ => none
| Nat.succ fuel, l, allowClose, acc =>
  match l with
  | '}' :: rest => if allowClose then some (Json.obj acc, rest) else none
  | '"' :: rest =>
    match parseStringBody (rest.length + 1) [] rest with
    | none => none
    | some (k, r1) =>
      match skipWs r1 with
      | ':' :: r2 =>
        match parseValue fuel (skipWs r2) with
        | none => none
        | some (v, r3) =>
          match skipWs r3 with
          | ',' :: r4 => parseObjFields fuel (skipWs r4) false (objInsert acc k v)
          | '}' :: r4 => some (Json.obj (objInsert acc k v), r4)
          | _ => none
      | _ => none
  | _ => none

/-- Array elements; `allowClose` is true exactly at the start of an empty
array. -/
def parseArrElems : ℕ → List Char → Bool → List Json →
    Option (Json × List Char)
| 0, _, _, _ => none
| Nat.succ fuel, l, allowClose, acc =>
  match l with
  | ']' :: rest =>
    if allowClose then some (Json.arr acc.reverse, rest) else none
  | _ =>
    match parseValue fuel l with
    | none => none
    | some (v, r1) =>
      match skipWs r1 with
      | ',' :: r2 => parseArrElems fuel (skipWs r2) false (v :: acc)
      | ']' :: r2 => some (Json.arr (v :: acc).reverse, r2)
      | _ => none

end

/-- Model of Python `json.loads`: one JSON value covering the whole input (up
to surrounding whitespace); `none` models `json.JSONDecodeError`.  The fuel
`2 * length + 4` dominates the recursion depth, which consumes at least one
character per unit. -/
def json_loads (l : List Char) : Option Json :=
  match parseValue (2 * l.length + 4) (skipWs l) with
  | some (v, rest) => if skipWs rest = [] then some v else none
  | none => none

def fenceJsonPat : List Char := "```json".data

def fencePat : List Char := "```".data

/-- Step 1 of `_parse_json_response`: parse the entire (stripped) text;
a dict is returned as is, a non-empty list yields its first element when that
is a dict and `{}` otherwise, any other parse yields `{}`; a decode error
falls through (`none`). -/
def parseStep1 (r : List Char) : Option Json :=
  match json_loads r with
  | some (Json.obj d) => some (Json.obj d)
  | some (Json.arr (Json.obj d :: _)) => some (Json.obj d)
  | some (Json.arr (_ :: _)) => some (Json.obj [])
  | some _ => some (Json.obj [])
  | none => none

/-- Step 2: a ```` ```json ```` fenced block; the interior is stripped and
parsed, returning a dict or a list's first dict element; every other outcome
falls through. -/
def parseStep2 (r : List Char) : Option Json :=
  if 0 ≤ findSubFrom r fenceJsonPat 0 then
    if findSubFrom r fencePat ((findSubFrom r fenceJsonPat 0).toNat + 7) ≠ -1 then
      match json_loads (pyStripChars (pySliceNat r
          ((findSubFrom r fenceJsonPat 0).toNat + 7)
          (findSubFrom r fencePat ((findSubFrom r fenceJsonPat 0).toNat + 7)).toNat)) with
      | some (Json.obj d) => some (Json.obj d)
      | some (Json.arr (Json.obj d :: _)) => some (Json.obj d)
      | _ => none
    else none
  else none

/-- Step 3: the span from the first `[` to the last `]` (note the source's
`rfind + 1` makes the second guard vacuous); a parsed list yields its first
element when that is a dict and `{}` otherwise, a parsed dict is returned,
anything else parsed yields `{}`; a decode error falls through. -/
def parseStep3 (r : List Char) : Option Json :=
  if findChar r '[' ≠ -1 ∧ rfindChar r ']' + 1 ≠ -1 then
    match json_loads (pySliceNat r (findChar r '[').toNat (rfindChar r ']' + 1).toNat) with
    | some (Json.obj d) => some (Json.obj d)
    | some (Json.arr (Json.obj d :: _)) => some (Json.obj d)
    | some (Json.arr (_ :: _)) => some (Json.obj [])
    | some _ => some (Json.obj [])
    | none => none
  else none

/-- Step 4: the span from the first `{` to the last `}`; a parsed dict is
returned, anything else parsed yields `{}`; a decode error falls through. -/
def parseStep4 (r : List Char) : Option Json :=
  if findChar r '{' ≠ -1 ∧ rfindChar r '}' + 1 ≠ -1 then
    match json_loads (pySliceNat r (findChar r '{').toNat (rfindChar r '}' + 1).toNat) with
    | some (Json.obj d) => some (Json.obj d)
    | some _ => some (Json.obj [])
    | none => none
  else none

/-- Model of `_parse_json_response`: strip, then the four recovery steps in
order, first match wins, ending in `{}`.  (The source's leading
`isinstance(response, str)` guard is vacuous for string input, which is the
only input type the pipeline passes.) -/
def parse_json_response (raw : String) : Json :=
  let r := pyStripChars raw.data
  match parseStep1 r with
  | some j => j
  | none =>
    match parseStep2 r with
    | some j => j
    | none =>
      match parseStep3 r with
      | some j => j
      | none =>
        match parseStep4 r with
        | some j => j
        | none => Json.obj []

/-- Is this value a mapping? -/
def Json.isObj : Json → Bool
| Json.obj _ => true
| _ => false

/-! ## Python value semantics used by the pipeline

Truthiness, `==`/`<` (needed by `min`), `str()` and `float()` on the
dynamically typed values that come out of `_parse_json_response`. -/

/-- Python numeric values reachable from decoded JSON: exact rationals
(covering both `int` and `float`), NaN, and signed infinity. -/
inductive PyNum where
| q (x : ℚ) : PyNum
| nanN : PyNum
| infN (neg : Bool) : PyNum
deriving Repr, DecidableEq, Inhabited

/-- Numeric view of a value, as Python's cross-type numeric comparison sees it
(`bool` counts as 0/1). -/
def asNum : Json → Option PyNum
| Json.bool b => some (PyNum.q (if b then 1 else 0))
| Json.int n => some (PyNum.q (n : ℚ))
| Json.float x => some (PyNum.q x)
| Json.nanV => some PyNum.nanN
| Json.infV n => some (PyNum.infN n)
| _ => none

def numLt : PyNum → PyNum → Bool
| PyNum.q a, PyNum.q b => a < b
| PyNum.nanN, _ => false
| _, PyNum.nanN => false
| PyNum.q _, PyNum.infN n => !n
| PyNum.infN n, PyNum.q _ => n
| PyNum.infN a, PyNum.infN b => a && !b

def numEq : PyNum → PyNum → Bool
| PyNum.q a, PyNum.q b => a == b
| PyNum.infN a, PyNum.infN b => a == b
| _, _ => false

mutual

/-- Structural size of a value, used to provision recursion fuel. -/
def jsonSize : Json → ℕ
| Json.arr l => jsonSizeList l + 1
| Json.obj l => jsonSizeFields l + 1
| _ => 1

def jsonSizeList : List Json → ℕ
| [] => 0
| x :: xs => jsonSize x + jsonSizeList xs + 1

def jsonSizeFields : List (String × Json) → ℕ
| [] => 0
| (_, v) :: ps => jsonSize v + jsonSizeFields ps + 1

end

mutual

/-- Python `==` on decoded values (cross-type numerics equal by value, NaN
unequal to itself, everything else structural; mixed types are simply
unequal).  The fuel dominates the recursion depth. -/
def pyEq : ℕ → Json → Json → Bool
| 0, _, _ => false
| Nat.succ fuel, a, b =>
  match asNum a, asNum b with
  | some x, some y => numEq x y
  | _, _ =>
    match a, b with
    | Json.null, Json.null => true
    | Json.str s, Json.str t => s == t
    | Json.arr l1, Json.arr l2 => pyEqList fuel l1 l2
    | Json.obj l1, Json.obj l2 => pyEqObj fuel l1 l2
    | _, _ => false

def pyEqList : ℕ → List Json → List Json → Bool
| _, [], [] => true
| Nat.succ fuel, x :: xs, y :: ys => pyEq fuel x y && pyEqList fuel xs ys
| _, _, _ => false

def pyEqObj : ℕ → List (String × Json) → List (String × Json) → Bool
| 0, _, _ => false
| Nat.succ fuel, l1, l2 =>
  l1.length == l2.length &&
    l1.all (fun p =>
      match objGet l2 p.1 with
      | some v => pyEq fuel p.2 v
      | none => false)

end

mutual

/-- Python `<` on decoded values; `.error` models `TypeError` for unorderable
operands (which `min` in `_compile_results` would raise). -/
def pyLt : ℕ → Json → Json → Except Unit Bool
| 0, _, _ => Except.error ()
| Nat.succ fuel, a, b =>
  match asNum a, asNum b with
  | some x, some y => Except.ok (numLt x y)
  | _, _ =>
    match a, b with
    | Json.str s, Json.str t => Except.ok (decide (s < t))
    | Json.arr l1, Json.arr l2 => pyLtList fuel l1 l2
    | _, _ => Except.error ()

/-- Python list `<`: first non-`==` pair decides, else the shorter list is
smaller. -/
def pyLtList : ℕ → List Json → List Json → Except Unit Bool
| 0, _, _ => Except.error ()
| Nat.succ _, [], [] => Except.ok false
| Nat.succ _, [], _ :: _ => Except.ok true
| Nat.succ _, _ :: _, [] => Except.ok false
| Nat.succ fuel, x :: xs, y :: ys =>
  if pyEq fuel x y then pyLtList fuel xs ys else pyLt fuel x y

end

def pyLtTop (a b : Json) : Except Unit Bool :=
  pyLt (jsonSize a + jsonSize b + 1) a b

/-- Python `min(a, b, c)`: fold keeping the first minimal element; an
`.error` from a comparison (a `TypeError`) propagates. -/
def pyMin3 (a b c : Json) : Except Unit Json :=
  match pyLtTop b a with
  | Except.error e => Except.error e
  | Except.ok x =>
    match pyLtTop c (if x then b else a) with
    | Except.error e => Except.error e
    | Except.ok y => Except.ok (if y then c else (if x then b else a))

/-- Python truthiness of a decoded value. -/
def pyTruthy : Json → Bool
| Json.null => false
| Json.bool b => b
| Json.int n => n != 0
| Json.float q => q != 0
| Json.nanV => true
| Json.infV _ => true
| Json.str s => s != ""
| Json.arr l => !l.isEmpty
| Json.obj l => !l.isEmpty

/-- Rendering of a float inside `str()`; an approximation of CPython's
shortest-round-trip float repr, feeding only free-text fields that no claim
inspects. -/
def pyReprQ (q : ℚ) : String := toString q

/-- Python `repr()` of a decoded value (string-escaping corners approximated;
feeds only free-text reasoning fields). -/
def pyRepr : ℕ → Json → String
| _, Json.null => "None"
| _, Json.bool b => if b then "True" else "False"
| _, Json.int n => toString n
| _, Json.float q => pyReprQ q
| _, Json.nanV => "nan"
| _, Json.infV n => if n then "-inf" else "inf"
| _, Json.str s => "'" ++ s ++ "'"
| 0, _ => ""
| Nat.succ fuel, Json.arr l =>
  "[" ++ String.intercalate ", " (l.map (fun v => pyRepr fuel v)) ++ "]"
| Nat.succ fuel, Json.obj l =>
  "\x7b" ++
    String.intercalate ", "
      (l.map (fun p => "'" ++ p.1 ++ "': " ++ pyRepr fuel p.2)) ++ "\x7d"

/-- Python `str()` of a decoded value. -/
def pyStr (v : Json) : String :=
  match v with
  | Json.str s => s
  | _ => pyRepr (jsonSize v + 1) v

def lowerChars (l : List Char) : List Char := l.map Char.toLower

/-- Mantissa-and-exponent part of a Python float literal:
`digits? (. digits?)? ([eE] sign? digits+)?` with at least one mantissa
digit.  (Underscored literals, a dark corner, are not modelled.) -/
def parseFloatAfterMantissa (base : ℚ) (rest : List Char) : Option ℚ :=
  match rest with
  | [] => some base
  | 'e' :: r =>
    let p : Bool × List Char :=
      match r with
      | '+' :: r2 => (false, r2)
      | '-' :: r2 => (true, r2)
      | _ => (false, r)
    let q := takeDigits p.2
    if q.1 = [] ∨ q.2 ≠ [] then none
    else some (base * zpow10 (if p.1 then -(natOfDigits q.1 : Int) else (natOfDigits q.1 : Int)))
  | _ => none

def parseFloatBody (l : List Char) : Option ℚ :=
  let d := takeDigits l
  match d.2 with
  | '.' :: r2 =>
    let f := takeDigits r2
    if d.1 = [] ∧ f.1 = [] then none
    else
      parseFloatAfterMantissa
        ((natOfDigits d.1 : ℚ) + (natOfDigits f.1 : ℚ) / (10 : ℚ) ^ f.1.length) f.2
  | _ => if d.1 = [] then none else parseFloatAfterMantissa (natOfDigits d.1 : ℚ) d.2

/-- Python `float(s)` on a string: optional sign, then `inf`/`infinity`/`nan`
(case-insensitive) or a decimal literal; surrounding whitespace stripped. -/
def parsePyFloatStr (s : String) : Option PyNum :=
  let l0 := lowerChars (pyStripChars s.data)
  let p : Bool × List Char :=
    match l0 with
    | '+' :: r => (false, r)
    | '-' :: r => (true, r)
    | _ => (false, l0)
  match p.2 with
  | 'i' :: 'n' :: 'f' :: 'i' :: 'n' :: 'i' :: 't' :: 'y' :: [] => some (PyNum.infN p.1)
  | 'i' :: 'n' :: 'f' :: [] => some (PyNum.infN p.1)
  | 'n' :: 'a' :: 'n' :: [] => some PyNum.nanN
  | body =>
    (parseFloatBody body).map (fun q => PyNum.q (if p.1 then -q else q))

/-- Python `float(v)` on a decoded value; `.error` models the
`TypeError`/`ValueError` raised on non-numeric input. -/
def pyFloat : Json → Except Unit PyNum
| Json.int n => Except.ok (PyNum.q (n : ℚ))
| Json.float q => Except.ok (PyNum.q q)
| Json.bool b => Except.ok (PyNum.q (if b then 1 else 0))
| Json.nanV => Except.ok PyNum.nanN
| Json.infV n => Except.ok (PyNum.infN n)
| Json.str s =>
  match parsePyFloatStr s with
  | some x => Except.ok x
  | none => Except.error ()
| _ => Except.error ()

/-! ## Response-timing model

`random.uniform(a, b)` is modelled as `a + (b - a) * u` for an explicit draw
`u ∈ [0, 1]`. -/

def uniform (a b u : ℚ) : ℚ := a + (b - a) * u

/-- `calculate_human_response_delay`: reading time from message length,
complexity-keyed thinking time, a bonus for messages over 100 characters,
typing time, a ±25% jitter factor, clamped to [3, 30] seconds.  The four
`u` arguments are the draws of the four `random.uniform` calls. -/
def calculate_human_response_delay (message_length : Int)
    (response_complexity : String) (u_think u_extra u_type u_jitter : ℚ) : ℚ :=
  let reading_time : ℚ := max 1 ((message_length : ℚ) / 250 * 60)
  let thinking_time : ℚ :=
    if response_complexity = "simple" then uniform 2 5 u_think
    else if response_complexity = "complex" then uniform 8 15 u_think
    else uniform 4 10 u_think
  let thinking_time : ℚ :=
    if message_length > 100 then thinking_time + uniform 2 6 u_extra
    else thinking_time
  let typing_time : ℚ := uniform 3 8 u_type
  let total_delay : ℚ := reading_time + thinking_time + typing_time
  let final_delay : ℚ := total_delay * uniform (3 / 4) (5 / 4) u_jitter
  max 3 (min 30 final_delay)

/-! ## The LangGraph decision pipeline (`ArvisoAIAgent`)

Each stage builds a prompt from the accumulated state, issues one external
generation call, and post-processes the outcome; the prompt text feeds only
the external call, whose outcome is the explicit `Except Unit String`
parameter (`.error` models a raised generation error).  The stage embeddings
below are the stages' observable state writes, which depend only on that
outcome (and, for the content stage, on the prior state). -/

/-- Substituted when the sentiment stage's parse yields a non-dict (vacuous
given the parser's totality, embedded for fidelity). -/
def sentiment_not_dict_default : List (String × Json) :=
  [("sentiment", Json.str "neutral"), ("confidence", Json.float (1 / 2)),
   ("emotional_indicators", Json.arr []), ("key_topics", Json.arr []),
   ("sentiment_trend", Json.str "stable"),
   ("pattern_change", Json.str "consistent"),
   ("reasoning", Json.str "Failed to parse sentiment analysis")]

/-- Substituted when the sentiment stage's generation call raises. -/
def sentiment_failure_default : List (String × Json) :=
  [("sentiment", Json.str "neutral"), ("confidence", Json.float (1 / 2)),
   ("emotional_indicators", Json.arr []), ("key_topics", Json.arr []),
   ("sentiment_trend", Json.str "stable"),
   ("reasoning", Json.str "Analysis failed, defaulting to neutral")]

/-- Membership of a decoded value in `["positive", "neutral", "negative"]`
(Python `in` compares with `==`; no non-string compares equal to these). -/
def isAllowedSentiment : Json → Bool
| Json.str s => s = "positive" || s = "neutral" || s = "negative"
| _ => false

/-- `_analyze_sentiment`: the value written to `state["sentiment_analysis"]`. -/
def analyze_sentiment_result (gen : Except Unit String) : List (String × Json) :=
  match gen with
  | Except.error _ => sentiment_failure_default
  | Except.ok text =>
    let d : List (String × Json) :=
      match parse_json_response text with
      | Json.obj d => d
      | _ => sentiment_not_dict_default
    let s := (objGet d "sentiment").getD (Json.str "neutral")
    if isAllowedSentiment s then d else objInsert d "sentiment" (Json.str "neutral")

/-- Substituted when the concern stage's parse yields a non-dict. -/
def concern_not_dict_default : List (String × Json) :=
  [("concern_level", Json.str "medium"),
   ("reasoning", Json.str "Failed to parse concern assessment"),
   ("confidence", Json.float (1 / 2))]

/-- Membership of a decoded value in the source's accepted list
`["low", "medium", "high", "critical"]` — note that `"critical"` IS accepted
(Python `in` compares with `==`; no non-string compares equal to these). -/
def isAllowedConcern : Json → Bool
| Json.str s => s = "low" || s = "medium" || s = "high" || s = "critical"
| _ => false

/-- `_assess_concern_level`'s normalization of the parsed dict: the value
written to `state["concern_level"]`.  An accepted value (necessarily a
string) is stored raw — including `"critical"`; anything else is replaced by
`"medium"`. -/
def concern_of_result (cr : List (String × Json)) : String :=
  if isAllowedConcern ((objGet cr "concern_level").getD (Json.str "medium")) then
    match (objGet cr "concern_level").getD (Json.str "medium") with
    | Json.str s => s
    | _ => "medium"
  else "medium"

/-- `_assess_concern_level`: the value written to `state["concern_level"]`
(`"medium"` when the generation call raises). -/
def assess_concern_result (gen : Except Unit String) : String :=
  match gen with
  | Except.error _ => "medium"
  | Except.ok text =>
    concern_of_result
      (match parse_json_response text with
       | Json.obj d => d
       | _ => concern_not_dict_default)

/-- Substituted when the flag stage's parse yields a non-dict. -/
def flag_not_dict_default : List (String × Json) :=
  [("should_flag", Json.bool false), ("flag_reasons", Json.arr []),
   ("urgency_level", Json.str "low"),
   ("reasoning", Json.str "Failed to parse flag decision"),
   ("confidence", Json.float (1 / 2))]

/-- Substituted when the flag stage's generation call raises (defaults to
flagging). -/
def flag_failure_default : List (String × Json) :=
  [("should_flag", Json.bool true),
   ("flag_reasons", Json.arr [Json.str "Analysis error - defaulting to human review"]),
   ("urgency_level", Json.str "medium"),
   ("reasoning", Json.str "Decision failed, defaulting to human review for safety"),
   ("confidence", Json.float (1 / 2))]

/-- The stage's `str(should_flag).lower() in ['true', '1', 'yes']` coercion,
reached only for non-`bool` decoded values: only a string rendering to one of
those words, or the integer 1, passes. -/
def pyBoolWord : Json → Bool
| Json.str s => s.toLower = "true" || s.toLower = "1" || s.toLower = "yes"
| Json.int n => n == 1
| _ => false

/-- `_decide_flag`: the value written to `state["flag_decision"]`, with
`should_flag` coerced to a `bool`. -/
def decide_flag_result (gen : Except Unit String) : List (String × Json) :=
  match gen with
  | Except.error _ => flag_failure_default
  | Except.ok text =>
    let fr : List (String × Json) :=
      match parse_json_response text with
      | Json.obj d => d
      | _ => flag_not_dict_default
    match (objGet fr "should_flag").getD (Json.bool false) with
    | Json.bool _ => fr
    | v => objInsert fr "should_flag" (Json.bool (pyBoolWord v))

/-- Substituted when the respond stage's generation call raises (defaults to
not responding). -/
def response_failure_default : List (String × Json) :=
  [("should_respond", Json.bool false), ("response_type", Json.str "ignore"),
   ("tone", Json.str "professional"),
   ("reasoning", Json.str "Decision failed, defaulting to human review"),
   ("confidence", Json.float (1 / 2))]

/-- `_decide_response`: the value written to `state["response_decision"]` —
the parsed dict stored raw (an empty dict when the parse yields a non-dict),
with no validation of `should_respond`. -/
def decide_response_result (gen : Except Unit String) : List (String × Json) :=
  match gen with
  | Except.error _ => response_failure_default
  | Except.ok text =>
    match parse_json_response text with
    | Json.obj d => d
    | _ => []

/-- Python `s[1:-1]`. -/
def stripFirstLast (s : String) : String := ⟨(s.data.drop 1).dropLast⟩

/-- `_generate_response_content`: the value written to
`state["response_content"]`, paired with whether an external generation call
was issued.  The stage checks only the respond decision's `should_respond`
truthiness — the weekly message count is not consulted. -/
def generate_response_content_result (gen : Except Unit String)
    (response_decision client_details : List (String × Json)) :
    Option String × Bool :=
  if !pyTruthy ((objGet response_decision "should_respond").getD (Json.bool false)) then
    (none, false)
  else
    match gen with
    | Except.ok text =>
      let c := pyStripStr text
      let c := if c.startsWith "\"" && c.endsWith "\"" then stripFirstLast c else c
      (some c, true)
    | Except.error _ =>
      let nm := pyStr ((objGet client_details "name").getD (Json.str "there"))
      (some ("Hi " ++ nm ++
        "! Thank you for reaching out. I'm here to help with any questions you might have about your case. What can I assist you with today?"), true)

/-- The pipeline state fields `_compile_results` reads. -/
structure PipeState where
  message : String
  client_details : List (String × Json)
  message_count : Int
  sentiment_analysis : List (String × Json)
  concern_level : String
  flag_decision : List (String × Json)
  response_decision : List (String × Json)
  response_content : Option String

/-- The record `_compile_results` builds (`state["final_result"]`).
`should_respond`, `should_flag`, `sentiment` and `confidence` carry the raw
decoded values the source copies. -/
structure FinalResult where
  action : String
  should_respond : Json
  should_flag : Json
  concern_level : String
  sentiment : Json
  reasoning : String
  confidence : Json
  response_content : Option String

/-- One labelled chunk of `_compile_reasoning`: present iff the field is
present and truthy. -/
def reasoningPart (d : List (String × Json)) (k label : String) : List String :=
  match objGet d k with
  | some v => if pyTruthy v then [label ++ pyStr v] else []
  | none => []

/-- `_compile_reasoning`: the six optional labelled chunks joined by
`" | "`. -/
def compile_reasoning (sd fd rd : List (String × Json)) : String :=
  String.intercalate " | "
    (reasoningPart sd "reasoning" "Sentiment Analysis: " ++
     reasoningPart sd "pattern_change" "Pattern Change: " ++
     reasoningPart fd "reasoning" "Flag Decision: " ++
     reasoningPart fd "pattern_context" "Pattern Context: " ++
     reasoningPart rd "reasoning" "Response Decision: " ++
     reasoningPart rd "conversation_context" "Conversation Context: ")

/-- A stage's `.get("confidence", 0.5)`. -/
def confOrDefault (d : List (String × Json)) : Json :=
  (objGet d "confidence").getD (Json.float (1 / 2))

/-- The `action` reduction of `_compile_results`: flag wins over respond
wins over ignore. -/
def compiled_action (fd rd : List (String × Json)) : String :=
  if pyTruthy ((objGet fd "should_flag").getD (Json.bool false)) then "flag"
  else if pyTruthy ((objGet rd "should_respond").getD (Json.bool false)) then "respond"
  else "ignore"

/-- `_compile_results`: flag wins over respond wins over ignore; confidence
is Python `min` over the three stage confidences with missing ones defaulted
to `0.5`; the concern level is copied verbatim from the state.  The `.error`
case is the `TypeError` Python's `min` raises on unorderable confidence
values (this stage has no try/except of its own). -/
def compile_results (st : PipeState) : Except Unit FinalResult :=
  match pyMin3 (confOrDefault st.sentiment_analysis)
    (confOrDefault st.flag_decision) (confOrDefault st.response_decision) with
  | Except.error e => Except.error e
  | Except.ok conf => Except.ok
    { action := compiled_action st.flag_decision st.response_decision
      should_respond := (objGet st.response_decision "should_respond").getD (Json.bool false)
      should_flag := (objGet st.flag_decision "should_flag").getD (Json.bool false)
      concern_level := st.concern_level
      sentiment := (objGet st.sentiment_analysis "sentiment").getD (Json.str "neutral")
      reasoning := compile_reasoning st.sentiment_analysis st.flag_decision st.response_decision
      confidence := conf
      response_content := st.response_content }

/-- The outcomes of the five per-stage external generation calls of one
pipeline run. -/
structure StageGens where
  sentiment : Except Unit String
  concern : Except Unit String
  flag : Except Unit String
  response : Except Unit String
  content : Except Unit String

/-- The compiled graph: the six stages in sequence
(sentiment → concern → flag → respond → generate → compile), the edges of
`_build_processing_graph`.  Returns the final result paired with whether the
content stage issued a generation call. -/
def run_graph (g : StageGens) (message : String)
    (client_details : List (String × Json)) (message_count : Int) :
    Except Unit (FinalResult × Bool) :=
  (compile_results
    { message := message, client_details := client_details,
      message_count := message_count,
      sentiment_analysis := analyze_sentiment_result g.sentiment,
      concern_level := assess_concern_result g.concern,
      flag_decision := decide_flag_result g.flag,
      response_decision := decide_response_result g.response,
      response_content := (generate_response_content_result g.content
        (decide_response_result g.response) client_details).1 }).map
    (fun fr => (fr,
      (generate_response_content_result g.content
        (decide_response_result g.response) client_details).2))

/-- The conservative record `process_client_message` returns when the graph
run raises, with `str(e)` interpolated into the reasoning. -/
def processing_failed_result (e : String) : FinalResult :=
  { action := "flag"
    should_respond := Json.bool false
    should_flag := Json.bool true
    concern_level := "high"
    sentiment := Json.str "neutral"
    reasoning := "Processing failed: " ++ e ++ " - Defaulting to human review"
    confidence := Json.float (1 / 10)
    response_content := none }

/-- A conversation message as the pipeline reads it (missing dict keys
defaulted to the empty string). -/
structure Msg where
  sender : String
  content : String
  timestamp : String

/-- `ArvisoAIAgent.process_client_message`: when `enable_human_delay` is set
it sleeps once for `random.uniform(2, 8)` seconds (draw `u`) before the graph
runs; the graph invocation sits in a try/except whose handler substitutes the
conservative default.  `graphOutcome` is the outcome of
`self.graph.invoke(...)["final_result"]` — `.ok` with the compiled record, or
`.error` carrying the exception text (a graph-machinery failure or the
compile stage's `TypeError`).  Returns the result paired with the list of
sleeps performed. -/
def process_client_message (message : String)
    (client_details : List (String × Json)) (message_count : Int)
    (enable_human_delay : Bool) (conversation_history : List Msg) (u : ℚ)
    (graphOutcome : Except String FinalResult) : FinalResult × List ℚ :=
  let sleeps : List ℚ := if enable_human_delay then [uniform 2 8 u] else []
  match graphOutcome with
  | Except.ok r => (r, sleeps)
  | Except.error e => (processing_failed_result e, sleeps)

/-! ## The standalone `generate_response` weekly-quota gate

`generate_response` (the module-level function, not the pipeline stage)
checks the weekly message count before anything else inside its try block.
`rest` abstracts the remainder of the function — delay, client construction,
the sentiment and generation calls, action items — as its result paired with
the number of external generation calls it issues; the quota branch is
embedded exactly and returns before any of that runs. -/

/-- The dict returned when the weekly limit is reached. -/
def limit_exceeded_result : List (String × Json) :=
  [("response", Json.null), ("action_items", Json.arr []),
   ("success", Json.bool false),
   ("message", Json.str "Weekly message limit exceeded - additional charges apply"),
   ("charge_additional", Json.bool true), ("limit_exceeded", Json.bool true)]

/-- `generate_response`'s quota gate: the second component counts external
generation calls issued. -/
def generate_response (message_count_this_week : Int)
    (rest : List (String × Json) × ℕ) : List (String × Json) × ℕ :=
  if message_count_this_week ≥ 25 then (limit_exceeded_result, 0) else rest

/-! ## Dates, for `_calculate_days_since` -/

def isLeapYear (y : Int) : Bool := y % 4 == 0 && (y % 100 != 0 || y % 400 == 0)

def daysInMonth (y m : Int) : Int :=
  if m = 2 then (if isLeapYear y then 29 else 28)
  else if m = 4 ∨ m = 6 ∨ m = 9 ∨ m = 11 then 30
  else 31

/-- Days between a civil date and 1970-01-01 (standard civil-calendar
conversion). -/
def days_from_civil (y m d : Int) : Int :=
  let y2 := if m ≤ 2 then y - 1 else y
  let era := Int.fdiv y2 400
  let yoe := y2 - era * 400
  let doy := Int.fdiv (153 * (if m > 2 then m - 3 else m + 9) + 2) 5 + d - 1
  let doe := yoe * 365 + Int.fdiv yoe 4 - Int.fdiv yoe 100 + doy
  era * 146097 + doe - 719468

/-- Exactly four digits, as `strptime`'s `%Y`. -/
def parseYear4 : List Char → Option (Int × List Char)
| a :: b :: c :: d :: rest =>
  if isDigitC a && isDigitC b && isDigitC c && isDigitC d then
    some ((((digitVal a * 10 + digitVal b) * 10 + digitVal c) * 10 + digitVal d : ℕ), rest)
  else none
| _ => none

/-- `strptime`'s `%m`, the regex `1[0-2]|0[1-9]|[1-9]` (alternatives tried in
order). -/
def parseMonthTok : List Char → Option (Int × List Char)
| '1' :: c :: rest =>
  if c = '0' || c = '1' || c = '2' then some ((10 + digitVal c : ℕ), rest)
  else some (1, c :: rest)
| '0' :: c :: rest =>
  if isDigitC c && c != '0' then some ((digitVal c : ℕ), rest) else none
| c :: rest =>
  if isDigitC c && c != '0' then some ((digitVal c : ℕ), rest) else none
| [] => none

/-- `strptime`'s `%d`, the regex `3[01]|[12]\d|0[1-9]|[1-9]`. -/
def parseDayTok : List Char → Option (Int × List Char)
| '3' :: c :: rest =>
  if c = '0' || c = '1' then some ((30 + digitVal c : ℕ), rest)
  else some (3, c :: rest)
| '1' :: c :: rest =>
  if isDigitC c then some ((10 + digitVal c : ℕ), rest) else some (1, c :: rest)
| '2' :: c :: rest =>
  if isDigitC c then some ((20 + digitVal c : ℕ), rest) else some (2, c :: rest)
| '0' :: c :: rest =>
  if isDigitC c && c != '0' then some ((digitVal c : ℕ), rest) else none
| c :: rest =>
  if isDigitC c && c != '0' then some ((digitVal c : ℕ), rest) else none
| [] => none

/-- `datetime.strptime(s, "%Y-%m-%d")` as the civil day number of the parsed
date: a full match of the format, then `datetime`'s own range validation
(year at least 1, day fitting the month). -/
def strptimeYMD (s : String) : Option Int :=
  match parseYear4 s.data with
  | none => none
  | some (y, r1) =>
    match r1 with
    | '-' :: r2 =>
      match parseMonthTok r2 with
      | none => none
      | some (m, r3) =>
        match r3 with
        | '-' :: r4 =>
          match parseDayTok r4 with
          | none => none
          | some (d, r5) =>
            if r5 = [] ∧ 1 ≤ y ∧ d ≤ daysInMonth y m then
              some (days_from_civil y m d)
            else none
        | _ => none
    | _ => none

/-- `_calculate_days_since`, with the wall clock passed explicitly as seconds
since the civil epoch: `(datetime.now() - date_obj).days` floors the
difference; the bare `except` maps every failure (unparseable or non-string
input) to 0. -/
def calculate_days_since (nowSec : Int) (v : Json) : Int :=
  match v with
  | Json.str s =>
    match strptimeYMD s with
    | some d => Int.fdiv (nowSec - d * 86400) 86400
    | none => 0
  | _ => 0

/-! ## `generate_client_insights`

The history filter, the context builders and the analysis summary feed only
the prompt of the single external generation call, whose outcome is the
explicit `gen` parameter; `today` is `datetime.now().strftime('%Y-%m-%d')`
and `nowSec` the wall clock, both passed explicitly. -/

/-- One element of the list `generate_client_insights` returns.  All fields
carry the raw decoded values the source copies, except `confidence`, which
the source passes through `float(...)`. -/
structure Insight where
  insight_type : Json
  category : Json
  message : Json
  date : Json
  status : Json
  confidence : PyNum
  supporting_evidence : Json
  recommended_actions : Json
  priority : Json

/-- The `formatted_insight` dict built for a parsed insight whose `message`
is truthy, given the already-converted confidence. -/
def mkFormattedInsight (today : String) (d : List (String × Json))
    (c : PyNum) : Insight :=
  { insight_type := (objGet d "insight_type").getD (Json.str "concern")
    category := (objGet d "category").getD (Json.str "communication")
    message := (objGet d "message").getD (Json.str "")
    date := (objGet d "date").getD (Json.str today)
    status := (objGet d "status").getD (Json.str "new")
    confidence := c
    supporting_evidence := (objGet d "supporting_evidence").getD (Json.arr [])
    recommended_actions := (objGet d "recommended_actions").getD (Json.arr [])
    priority := (objGet d "priority").getD (Json.str "medium") }

/-- The try-block of `generate_client_insights`: generation, tolerant parse
(always a dict, which the source wraps into a one-element list), then the
validation loop; `.error` is an exception — the generation call raising, or
`float(...)` on a non-numeric confidence. -/
def insights_attempt (gen : Except Unit String) (today : String) :
    Except Unit (List Insight) := do
  let raw ← gen
  let lst : List (List (String × Json)) :=
    match parse_json_response raw with
    | Json.obj d => [d]
    | _ => []
  lst.foldlM
    (fun acc d =>
      if pyTruthy ((objGet d "message").getD Json.null) then do
        let c ← pyFloat ((objGet d "confidence").getD (Json.float (7 / 10)))
        pure (acc ++ [mkFormattedInsight today d c])
      else pure acc)
    []

/-- Fallback communication insight (`len(client_messages) > 0`). -/
def comm_fallback_insight (nClient : ℕ) (today : String) : Insight :=
  { insight_type := Json.str "positive"
    category := Json.str "communication"
    message := Json.str ("Client has initiated " ++ toString nClient ++
      " conversation(s), showing active engagement with the firm.")
    date := Json.str today
    status := Json.str "new"
    confidence := PyNum.q (7 / 10)
    supporting_evidence := Json.arr [Json.str ("Client sent " ++ toString nClient ++ " messages")]
    recommended_actions := Json.arr [Json.str "Continue responsive communication",
      Json.str "Monitor for any concerns"]
    priority := Json.str "low" }

/-- Fallback case-progress insight (`days_since_incident > 90`). -/
def progress_fallback_insight (days : Int) (today : String) : Insight :=
  { insight_type := Json.str "concern"
    category := Json.str "case_progress"
    message := Json.str ("Case is " ++ toString days ++
      " days old. Client may have questions about timeline and progress.")
    date := Json.str today
    status := Json.str "new"
    confidence := PyNum.q (3 / 5)
    supporting_evidence := Json.arr [Json.str ("Incident occurred " ++ toString days ++ " days ago")]
    recommended_actions := Json.arr [Json.str "Provide case progress update",
      Json.str "Set clear timeline expectations"]
    priority := Json.str "medium" }

/-- The basic fallback insight appended when nothing else was generated. -/
def basic_fallback_insight (today : String) : Insight :=
  { insight_type := Json.str "concern"
    category := Json.str "communication"
    message := Json.str "Limited conversation data available. Recommend reaching out to client to establish communication."
    date := Json.str today
    status := Json.str "new"
    confidence := PyNum.q (1 / 2)
    supporting_evidence := Json.arr [Json.str "Minimal conversation history"]
    recommended_actions := Json.arr [Json.str "Initiate client contact",
      Json.str "Establish regular communication schedule"]
    priority := Json.str "medium" }

/-- The except-branch of `generate_client_insights`: rule-based insights from
the full (unfiltered) history, with the basic insight as last resort. -/
def insights_fallback (nowSec : Int) (today : String)
    (client_details : List (String × Json)) (history : List Msg) :
    List Insight :=
  let base : List Insight :=
    if !history.isEmpty then
      let nClient := (history.filter (fun m => m.sender = "client")).length
      let l1 := if nClient > 0 then [comm_fallback_insight nClient today] else []
      let days := calculate_days_since nowSec
        ((objGet client_details "incident_date").getD (Json.str ""))
      let l2 := if days > 90 then [progress_fallback_insight days today] else []
      l1 ++ l2
    else []
  if base.isEmpty then [basic_fallback_insight today] else base

/-- `generate_client_insights`: the try-block's insights, or — only when an
exception was raised — the rule-based fallback. -/
def generate_client_insights (gen : Except Unit String) (nowSec : Int)
    (today : String) (client_details : List (String × Json))
    (conversation_history : List Msg) : List Insight :=
  match insights_attempt gen today with
  | Except.ok l => l
  | Except.error _ =>
    insights_fallback nowSec today client_details conversation_history

/-! ## Helper lemmas -/

theorem parseStep1_obj (r : List Char) (j : Json) (h : parseStep1 r = some j) :
    j.isObj = true := by
  unfold parseStep1 at h
  split at h <;> first | (cases h; rfl) | simp_all

theorem parseStep2_obj (r : List Char) (j : Json) (h : parseStep2 r = some j) :
    j.isObj = true := by
  unfold parseStep2 at h
  split at h
  · split at h
    · split at h <;> first | (cases h; rfl) | simp_all
    · simp_all
  · simp_all

theorem parseStep3_obj (r : List Char) (j : Json) (h : parseStep3 r = some j) :
    j.isObj = true := by
  unfold parseStep3 at h
  split at h
  · split at h <;> first | (cases h; rfl) | simp_all
  · simp_all

theorem parseStep4_obj (r : List Char) (j : Json) (h : parseStep4 r = some j) :
    j.isObj = true := by
  unfold parseStep4 at h
  split at h
  · split at h <;> first | (cases h; rfl) | simp_all
  · simp_all

theorem parse_of_step1 (s : String) (j : Json)
    (h : parseStep1 (pyStripChars s.data) = some j) :
    parse_json_response s = j := by
  unfold parse_json_response
  simp [h]

theorem pyMin3_float (a b c : ℚ) :
    pyMin3 (Json.float a) (Json.float b) (Json.float c) =
      Except.ok (Json.float (min a (min b c))) := by
  have e0 : ∀ x y : ℚ, pyLtTop (Json.float y) (Json.float x) = Except.ok (decide (y < x)) :=
    fun _ _ => rfl
  rcases lt_or_le b a with hab | hab
  · rcases lt_or_le c b with hcb | hcb
    · have m1 : min b c = c := min_eq_right hcb.le
      have m2 : min a c = c := min_eq_right (hcb.trans hab).le
      simp [pyMin3, e0, hab, hcb, m1, m2]
    · have m1 : min b c = b := min_eq_left hcb
      have m2 : min a b = b := min_eq_right hab.le
      simp [pyMin3, e0, hab, not_lt.2 hcb, m1, m2]
  · rcases lt_or_le c a with hca | hca
    · have m1 : min b c = c := min_eq_right (hca.le.trans hab)
      have m2 : min a c = c := min_eq_right hca.le
      simp [pyMin3, e0, not_lt.2 hab, hca, m1, m2]
    · have m1 : min a (min b c) = a := min_eq_left (le_min hab hca)
      simp [pyMin3, e0, not_lt.2 hab, not_lt.2 hca, m1]

theorem compile_results_ok (st : PipeState) (a b c : ℚ)
    (ha : confOrDefault st.sentiment_analysis = Json.float a)
    (hb : confOrDefault st.flag_decision = Json.float b)
    (hc : confOrDefault st.response_decision = Json.float c) :
    compile_results st = Except.ok
      { action := compiled_action st.flag_decision st.response_decision
        should_respond := (objGet st.response_decision "should_respond").getD (Json.bool false)
        should_flag := (objGet st.flag_decision "should_flag").getD (Json.bool false)
        concern_level := st.concern_level
        sentiment := (objGet st.sentiment_analysis "sentiment").getD (Json.str "neutral")
        reasoning := compile_reasoning st.sentiment_analysis st.flag_decision st.response_decision
        confidence := Json.float (min a (min b c))
        response_content := st.response_content } := by
  unfold compile_results
  rw [ha, hb, hc, pyMin3_float]

/-! ## The claims -/

/-- C3: the tolerant result parser is total — for every input string,
including the empty string, non-JSON prose, and truncated JSON, it returns a
mapping (possibly empty) and never any other kind of value; every decode
failure inside it is caught, so no exception escapes (the function is a total
Lean function whose every return path is an object). -/
theorem parse_json_response_total_mapping (s : String) :
    (parse_json_response s).isObj = true := by
  unfold parse_json_response
  cases h1 : parseStep1 (pyStripChars s.data) with
  | some j => simpa [h1] using parseStep1_obj _ _ h1
  | none =>
    cases h2 : parseStep2 (pyStripChars s.data) with
    | some j => simpa [h1, h2] using parseStep2_obj _ _ h2
    | none =>
      cases h3 : parseStep3 (pyStripChars s.data) with
      | some j => simpa [h1, h2, h3] using parseStep3_obj _ _ h3
      | none =>
        cases h4 : parseStep4 (pyStripChars s.data) with
        | some j => simpa [h1, h2, h3, h4] using parseStep4_obj _ _ h4
        | none => simp [h1, h2, h3, h4, Json.isObj]

/-- C4: first-match-wins — a string that is entirely a JSON object parses to
that object; entirely a non-empty JSON array with an object first element, to
that first element (and to the empty mapping when the first element is not an
object); and the three documented examples, including the
```` ```json ````-fenced one, evaluate as stated. -/
theorem parse_first_match :
    (∀ (s : String) (d : List (String × Json)),
       json_loads (pyStripChars s.data) = some (Json.obj d) →
       parse_json_response s = Json.obj d) ∧
    (∀ (s : String) (d : List (String × Json)) (rest : List Json),
       json_loads (pyStripChars s.data) = some (Json.arr (Json.obj d :: rest)) →
       parse_json_response s = Json.obj d) ∧
    (∀ (s : String) (x : Json) (rest : List Json),
       json_loads (pyStripChars s.data) = some (Json.arr (x :: rest)) →
       x.isObj = false →
       parse_json_response s = Json.obj []) ∧
    parse_json_response "\x7b\"a\":1\x7d" = Json.obj [("a", Json.int 1)] ∧
    parse_json_response "[\x7b\"a\":1\x7d,\x7b\"b\":2\x7d]" = Json.obj [("a", Json.int 1)] ∧
    parse_json_response "```json\n\x7b\"a\":1\x7d\n```" = Json.obj [("a", Json.int 1)] := by
  refine ⟨?_, ?_, ?_, by rfl, by rfl, by rfl⟩
  · intro s d h
    apply parse_of_step1
    unfold parseStep1
    rw [h]
  · intro s d rest h
    apply parse_of_step1
    unfold parseStep1
    rw [h]
  · intro s x rest h hx
    apply parse_of_step1
    unfold parseStep1
    rw [h]
    cases x <;> simp_all [Json.isObj]

/-- Witness for C4: the whole-object rule applied at a concrete input. -/
theorem parse_first_match_witness :
    parse_json_response "  \x7b\"k\": 2\x7d  " = Json.obj [("k", Json.int 2)] :=
  parse_first_match.1 "  \x7b\"k\": 2\x7d  " [("k", Json.int 2)] (by rfl)

/-- C1 counterexample: a concern-stage output with
`concern_level: "critical"` is stored raw — `"critical"` is in the source's
accepted list, so the stage keeps it, and the compiled final result returns
it verbatim; it is not normalized to `"high"`. -/
theorem concern_critical_stored_raw :
    assess_concern_result
        (Except.ok "\x7b\"concern_level\": \"critical\"\x7d") = "critical" ∧
    (run_graph
        ⟨Except.error (), Except.ok "\x7b\"concern_level\": \"critical\"\x7d",
         Except.error (), Except.error (), Except.error ()⟩
        "I need this resolved now" [] 4).map (fun p => p.1.concern_level) =
      Except.ok "critical" ∧
    "critical" ≠ "high" :=
  ⟨by rfl, by with_unfolding_all rfl, by decide⟩

/-- C1 amended: the concern stage accepts `"critical"` as a valid level and
stores and returns it raw; a `concern_level` outside
`{low, medium, high, critical}` is normalized to `"medium"` (not `"high"`);
and the result compiler copies the stored level verbatim into the final
decision. -/
theorem concern_normalization_amended :
    (∀ cr : List (String × Json),
       objGet cr "concern_level" = some (Json.str "critical") →
       concern_of_result cr = "critical") ∧
    (∀ (cr : List (String × Json)) (v : Json),
       objGet cr "concern_level" = some v → isAllowedConcern v = false →
       concern_of_result cr = "medium") ∧
    (∀ (st : PipeState) (fr : FinalResult),
       compile_results st = Except.ok fr → fr.concern_level = st.concern_level) := by
  refine ⟨?_, ?_, ?_⟩
  · intro cr h
    simp [concern_of_result, h, isAllowedConcern]
  · intro cr v h hv
    simp [concern_of_result, h, hv]
  · intro st fr h
    unfold compile_results at h
    split at h
    · exact (Except.noConfusion h)
    · cases h
      rfl

/-- Witness for C1's amended statement: `"critical"` kept raw, an out-of-enum
value sent to `"medium"`. -/
theorem concern_normalization_amended_witness :
    concern_of_result [("concern_level", Json.str "critical")] = "critical" ∧
    concern_of_result [("concern_level", Json.str "urgent")] = "medium" :=
  ⟨concern_normalization_amended.1 [("concern_level", Json.str "critical")] rfl,
   concern_normalization_amended.2.1 [("concern_level", Json.str "urgent")]
     (Json.str "urgent") rfl (by rfl)⟩

/-- C2 counterexample: a pipeline run (`run_graph`) at message count 25 whose
respond stage said to respond still issues the reply-generation call and
compiles an ordinary result carrying the generated reply — the weekly quota
is not consulted anywhere in the graph, and the compiled record has no
limit-exceeded field (see `FinalResult`). -/
theorem pipeline_ignores_quota_at_25 :
    (run_graph
        ⟨Except.error (), Except.error (),
         Except.ok "\x7b\"should_flag\": false, \"confidence\": 0.8\x7d",
         Except.ok "\x7b\"should_respond\": true, \"confidence\": 0.9\x7d",
         Except.ok "Sure thing!"⟩ "hi" [] 25).map
      (fun p => (p.1.action, p.1.response_content, p.2)) =
      Except.ok ("respond", some "Sure thing!", true) := by
  with_unfolding_all rfl

/-- C2 amended: the weekly-quota gate lives in the standalone
`generate_response` function, not in the pipeline: for every
`message_count_this_week ≥ 25` it returns, before any external generation
call (zero calls issued, whatever the rest of the function would do), the
limit record with `limit_exceeded = true`, `charge_additional = true` and a
null response. -/
theorem generate_response_quota_gate (mc : Int)
    (rest : List (String × Json) × ℕ) (h : 25 ≤ mc) :
    generate_response mc rest = (limit_exceeded_result, 0) ∧
    objGet limit_exceeded_result "limit_exceeded" = some (Json.bool true) ∧
    objGet limit_exceeded_result "charge_additional" = some (Json.bool true) ∧
    objGet limit_exceeded_result "response" = some Json.null := by
  refine ⟨?_, by rfl, by rfl, by rfl⟩
  unfold generate_response
  rw [if_pos h]

/-- Witness for C2's amended statement at the boundary count 25. -/
theorem generate_response_quota_gate_witness :
    generate_response 25 ([("response", Json.str "ignored")], 3) =
      (limit_exceeded_result, 0) :=
  (generate_response_quota_gate 25 ([("response", Json.str "ignored")], 3)
    (by norm_num)).1

/-- C5: for every pipeline run whose three stage results carry (or lack) a
numeric confidence — `confOrDefault` is the stage's
`.get("confidence", 0.5)` — the compiled confidence is exactly
`min(sentiment, flag, respond)`. -/
theorem final_confidence_is_min (g : StageGens) (message : String)
    (cd : List (String × Json)) (mc : Int) (a b c : ℚ)
    (ha : confOrDefault (analyze_sentiment_result g.sentiment) = Json.float a)
    (hb : confOrDefault (decide_flag_result g.flag) = Json.float b)
    (hc : confOrDefault (decide_response_result g.response) = Json.float c) :
    (run_graph g message cd mc).map (fun p => p.1.confidence) =
      Except.ok (Json.float (min a (min b c))) := by
  unfold run_graph
  rw [compile_results_ok _ a b c ha hb hc]
  rfl

/-- Witness for C5: a run with confidences 0.9, 0.5 (flag stage failed, so
its default 0.5 applies) and 0.8 compiles to confidence 0.5. -/
theorem final_confidence_is_min_witness :
    (run_graph
        ⟨Except.ok "\x7b\"confidence\": 0.9\x7d", Except.error (), Except.error (),
         Except.ok "\x7b\"confidence\": 0.8, \"should_respond\": false\x7d",
         Except.error ()⟩ "hello" [] 3).map (fun p => p.1.confidence) =
      Except.ok (Json.float (1 / 2)) := by
  have h := final_confidence_is_min
    ⟨Except.ok "\x7b\"confidence\": 0.9\x7d", Except.error (), Except.error (),
     Except.ok "\x7b\"confidence\": 0.8, \"should_respond\": false\x7d",
     Except.error ()⟩ "hello" [] 3 (9 / 10) (1 / 2) (4 / 5)
    (by with_unfolding_all rfl) (by with_unfolding_all rfl)
    (by with_unfolding_all rfl)
  rw [h]
  norm_num

/-- C6: for every pipeline run, the compiled action is flag-over-respond-over-
ignore on the two stage booleans, and the returned `should_flag` and
`should_respond` equal the stage decisions (stated under numeric confidences
so that compilation succeeds). -/
theorem final_action_precedence (g : StageGens) (message : String)
    (cd : List (String × Json)) (mc : Int) (f r : Bool) (a b c : ℚ)
    (hf : objGet (decide_flag_result g.flag) "should_flag" = some (Json.bool f))
    (hr : objGet (decide_response_result g.response) "should_respond" = some (Json.bool r))
    (ha : confOrDefault (analyze_sentiment_result g.sentiment) = Json.float a)
    (hb : confOrDefault (decide_flag_result g.flag) = Json.float b)
    (hc : confOrDefault (decide_response_result g.response) = Json.float c) :
    (run_graph g message cd mc).map
      (fun p => (p.1.action, p.1.should_flag, p.1.should_respond)) =
      Except.ok
        ((if f then "flag" else if r then "respond" else "ignore"),
         Json.bool f, Json.bool r) := by
  unfold run_graph
  rw [compile_results_ok _ a b c ha hb hc]
  cases f <;> cases r <;> simp [compiled_action, hf, hr, pyTruthy] <;> rfl

/-- Witness for C6: flag true dominates respond true. -/
theorem final_action_precedence_witness :
    (run_graph
        ⟨Except.error (),  Except.error (),
         Except.ok "\x7b\"should_flag\": true, \"confidence\": 0.8\x7d",
         Except.ok "\x7b\"should_respond\": true, \"confidence\": 0.9\x7d",
         Except.ok "generated"⟩ "hi" [] 0).map
      (fun p => (p.1.action, p.1.should_flag, p.1.should_respond)) =
      Except.ok ("flag", Json.bool true, Json.bool true) := by
  have h := final_action_precedence
    ⟨Except.error (), Except.error (),
     Except.ok "\x7b\"should_flag\": true, \"confidence\": 0.8\x7d",
     Except.ok "\x7b\"should_respond\": true, \"confidence\": 0.9\x7d",
     Except.ok "generated"⟩ "hi" [] 0 true true (1 / 2) (4 / 5) (9 / 10)
    (by with_unfolding_all rfl) (by with_unfolding_all rfl)
    (by with_unfolding_all rfl) (by with_unfolding_all rfl)
    (by with_unfolding_all rfl)
  simpa using h

/-- C7: for every message length ≥ 0, every complexity in
{simple, normal, complex}, and every draw of the four internal uniform
randoms from their stated ranges (draws in [0,1] of `uniform a b`), the
computed response delay lies in [3, 30] seconds. -/
theorem delay_within_bounds (len : Int) (complexity : String)
    (u1 u2 u3 u4 : ℚ) (hlen : 0 ≤ len)
    (hcomp : complexity = "simple" ∨ complexity = "normal" ∨ complexity = "complex")
    (h1 : 0 ≤ u1 ∧ u1 ≤ 1) (h2 : 0 ≤ u2 ∧ u2 ≤ 1)
    (h3 : 0 ≤ u3 ∧ u3 ≤ 1) (h4 : 0 ≤ u4 ∧ u4 ≤ 1) :
    3 ≤ calculate_human_response_delay len complexity u1 u2 u3 u4 ∧
      calculate_human_response_delay len complexity u1 u2 u3 u4 ≤ 30 := by
  unfold calculate_human_response_delay
  exact ⟨le_max_left _ _, max_le (by norm_num) (min_le_left _ _)⟩

/-- Witness for C7 at length 50, normal complexity, all draws at the low end. -/
theorem delay_within_bounds_witness :
    3 ≤ calculate_human_response_delay 50 "normal" 0 0 0 0 ∧
      calculate_human_response_delay 50 "normal" 0 0 0 0 ≤ 30 :=
  delay_within_bounds 50 "normal" 0 0 0 0 (by norm_num)
    (Or.inr (Or.inl rfl)) ⟨by norm_num, by norm_num⟩ ⟨by norm_num, by norm_num⟩
    ⟨by norm_num, by norm_num⟩ ⟨by norm_num, by norm_num⟩

/-- C8: the entry point `process_client_message` is total over every graph
outcome (no exception reaches the caller), and whenever the graph run raised
it returns the conservative record — action "flag", no auto-response,
flagged, concern "high", confidence 0.1, with the failure text named in the
reasoning. -/
theorem entry_point_conservative_on_failure (message : String)
    (cd : List (String × Json)) (mc : Int) (enable : Bool) (hist : List Msg)
    (u : ℚ) (e : String) :
    (process_client_message message cd mc enable hist u (Except.error e)).1 =
      processing_failed_result e ∧
    (processing_failed_result e).action = "flag" ∧
    (processing_failed_result e).should_respond = Json.bool false ∧
    (processing_failed_result e).should_flag = Json.bool true ∧
    (processing_failed_result e).concern_level = "high" ∧
    (processing_failed_result e).confidence = Json.float (1 / 10) ∧
    (processing_failed_result e).reasoning =
      "Processing failed: " ++ e ++ " - Defaulting to human review" ∧
    (processing_failed_result e).response_content = none :=
  ⟨rfl, rfl, rfl, rfl, rfl, rfl, rfl, rfl⟩

/-- C9 counterexample: a successful generation call whose output parses to
nothing usable makes `generate_client_insights` return the empty list even
though the conversation history is non-empty — the rule-based fallback runs
only when an exception is raised. -/
theorem insights_empty_on_unusable_parse :
    generate_client_insights (Except.ok "no json here") 0 "2026-10-12" []
      [{ sender := "client", content := "hi", timestamp := "2026-10-10 09:00:00" }] =
      [] := by
  rfl

/-- C9 amended: the insight guarantees hold on the exception path only —
when the generation call raises, a non-empty history yields at least one
rule-based insight, and an empty history yields exactly one fallback insight
with category "communication" and confidence 0.5; when generation succeeds
but the parse carries no usable `message`, the function returns the empty
list. -/
theorem insights_fallback_guarantees (nowSec : Int) (today : String)
    (cd : List (String × Json)) (hist : List Msg) (hne : hist ≠ []) :
    1 ≤ (generate_client_insights (Except.error ()) nowSec today cd hist).length ∧
    generate_client_insights (Except.error ()) nowSec today cd [] =
      [basic_fallback_insight today] ∧
    (basic_fallback_insight today).category = Json.str "communication" ∧
    (basic_fallback_insight today).confidence = PyNum.q (1 / 2) ∧
    (∀ (raw : String) (d : List (String × Json)),
       parse_json_response raw = Json.obj d →
       pyTruthy ((objGet d "message").getD Json.null) = false →
       generate_client_insights (Except.ok raw) nowSec today cd hist = []) := by
  refine ⟨?_, by rfl, by rfl, by rfl, ?_⟩
  · have key : ∀ l : List Insight,
        1 ≤ (if l.isEmpty then [basic_fallback_insight today] else l).length := by
      intro l
      cases l <;> simp
    exact key _
  · intro raw d hparse hmsg
    show (match insights_attempt (Except.ok raw) today with
          | Except.ok l => l
          | Except.error _ => insights_fallback nowSec today cd hist) = []
    have hat : insights_attempt (Except.ok raw) today = Except.ok [] := by
      unfold insights_attempt
      simp only [hparse, Bind.bind, Except.bind]
      simp only [List.foldlM_cons, List.foldlM_nil, hmsg]
      simp only [pure, Except.pure, Bool.false_eq_true, if_false, Bind.bind, Except.bind]
    rw [hat]

/-- Witness for C9's amended statement with a one-message history. -/
theorem insights_fallback_guarantees_witness :
    1 ≤ (generate_client_insights (Except.error ()) 0 "2026-10-12" []
      [{ sender := "client", content := "hello", timestamp := "" }]).length :=
  (insights_fallback_guarantees 0 "2026-10-12" []
    [{ sender := "client", content := "hello", timestamp := "" }]
    (by simp)).1

/-- C10 (implicit): with the delay enabled, the entry point sleeps exactly
once before the graph is invoked, for `uniform(2, 8)` seconds — within [2, 8]
for every draw — and the sleep is independent of the message, client,
message count, history and graph outcome; the [3, 30] response-delay formula
(`calculate_human_response_delay`) can never produce the draw-0 entry sleep
of 2 seconds, so that formula is not what governs this suspension. -/
theorem entry_delay_uniform_2_8 (message : String) (cd : List (String × Json))
    (mc : Int) (hist : List Msg) (u : ℚ) (go : Except String FinalResult)
    (hu : 0 ≤ u ∧ u ≤ 1) :
    (process_client_message message cd mc true hist u go).2 = [uniform 2 8 u] ∧
    2 ≤ uniform 2 8 u ∧ uniform 2 8 u ≤ 8 ∧
    (∀ (m2 : String) (cd2 : List (String × Json)) (mc2 : Int) (h2 : List Msg)
        (go2 : Except String FinalResult),
      (process_client_message m2 cd2 mc2 true h2 u go2).2 =
        (process_client_message message cd mc true hist u go).2) ∧
    (∀ (len : Int) (comp : String) (v1 v2 v3 v4 : ℚ),
      calculate_human_response_delay len comp v1 v2 v3 v4 ≠ uniform 2 8 0) := by
  have hgo : ∀ go2 : Except String FinalResult,
      (process_client_message message cd mc true hist u go2).2 = [uniform 2 8 u] := by
    intro go2
    cases go2 <;> rfl
  refine ⟨hgo go, ?_, ?_, fun m2 cd2 mc2 h2 go2 => ?_, ?_⟩
  · unfold uniform
    nlinarith [hu.1, hu.2]
  · unfold uniform
    nlinarith [hu.1, hu.2]
  · rw [hgo go]
    cases go2 <;> rfl
  · intro len comp v1 v2 v3 v4 h
    have h3 : (3 : ℚ) ≤ calculate_human_response_delay len comp v1 v2 v3 v4 := by
      unfold calculate_human_response_delay
      exact le_max_left _ _
    rw [h] at h3
    norm_num [uniform] at h3

/-- Witness for C10 at the draw 1/2: a 5-second sleep. -/
theorem entry_delay_uniform_2_8_witness :
    (process_client_message "hi" [] 0 true [] (1 / 2)
        (Except.error "boom")).2 = [uniform 2 8 (1 / 2)] ∧
    2 ≤ uniform 2 8 ((1 : ℚ) / 2) ∧ uniform 2 8 ((1 : ℚ) / 2) ≤ 8 := by
  have h := entry_delay_uniform_2_8 "hi" [] 0 [] (1 / 2) (Except.error "boom")
    ⟨by norm_num, by norm_num⟩
  exact ⟨h.1, h.2.1, h.2.2.1⟩

end Arviso
